import Mathlib

/-!
Shallow embedding of the `molecule-proxmox` driver sources
(`src/molecule_proxmox/modules/proxmox_qemu_agent.py` and
`src/molecule_proxmox/driver.py`) together with proofs about the
VM readiness poller (task waiter, guest-agent poller, address
extractor/ranker) and the driver's connection-option lookup.

Conventions of the embedding:
* Python dictionaries with a fixed shape become structures; optional keys
  become `Option` fields (`d.get(k, default)` is `field.getD default`).
* An uncaught Python exception is an explicit error value (`Option`/`Except`
  or a dedicated failure constructor); `module.fail_json` is a `failed`/
  `failJson` outcome carrying the message.
* Blocking loops bounded by the integer `timeout` countdown become
  structural recursion on that countdown; the environment (agent replies,
  task-status polls, task log) is passed in as oracles.
* `time.sleep(1)` calls are counted where a claim mentions them.
-/

set_option autoImplicit false

namespace MoleculeProxmox

/-- Python `s.startswith(pre)`: character-list prefix test. -/
def pyStartsWith (s pre : String) : Bool :=
  pre.data.isPrefixOf s.data

/-- Python `s.lower()`: lower-case every character. -/
def pyLower (s : String) : String :=
  ⟨s.data.map Char.toLower⟩

/-- Substring occurrence over character lists: `needle` is a prefix of some
suffix of the haystack (the empty needle occurs in every string). -/
def containsSub (needle : List Char) : List Char → Bool
  | [] => needle.isEmpty
  | c :: rest => needle.isPrefixOf (c :: rest) || containsSub needle rest

/-- Python membership test `needle in hay` on strings. -/
def pyIn (needle hay : String) : Bool :=
  containsSub needle.data hay.data

/-- Python `s.split('.')` over the character list: splits at every dot,
keeping empty components (`''.split('.') == ['']`). -/
def splitDotChars : List Char → List (List Char)
  | [] => [[]]
  | c :: rest =>
    let r := splitDotChars rest
    if c == '.' then [] :: r
    else
      match r with
      | [] => [[c]]
      | h :: t => (c :: h) :: t

/-- Value of a non-empty all-digit character list, `none` otherwise. -/
def digitsToNat (l : List Char) : Option Nat :=
  if l.isEmpty then none
  else
    l.foldl
      (fun acc c =>
        match acc with
        | some n => if c.isDigit then some (n * 10 + (c.toNat - 48)) else none
        | none => none)
      (some 0)

/-- Python `int(s)` as a partial function: strips surrounding whitespace,
accepts an optional sign followed by a non-empty digit string, and returns
`none` where CPython raises `ValueError`. (Underscore digit separators,
which cannot occur in dotted-quad components, are not modelled.) -/
def pyIntChars (s : List Char) : Option Int :=
  let t := s.dropWhile Char.isWhitespace
  let t := (t.reverse.dropWhile Char.isWhitespace).reverse
  let neg := t.headD ' ' == '-'
  let core := if neg || t.headD ' ' == '+' then t.drop 1 else t
  match digitsToNat core with
  | some n => some (if neg then -(n : Int) else (n : Int))
  | none => none

/-- One entry of an interface's `ip-addresses` list, as produced by the
guest agent's `network-get-interfaces` query. Both keys are read with
`dict.get(key, '')` in the source, hence `Option` fields. -/
structure IpEntry where
  ipAddressType : Option String
  ipAddress : Option String
deriving DecidableEq, Repr

/-- One interface record of a `network-get-interfaces` reply: the source
reads `interface.get('name', '')` and tests `'ip-addresses' in interface`. -/
structure Interface where
  name : Option String
  ipAddresses : Option (List IpEntry)
deriving DecidableEq, Repr

/-- The loopback interface names skipped by `i2a`
(`interface_name.lower() in ['lo', 'loopback']`). -/
def loopbackNames : List String := ["lo", "loopback"]

/-- The acceptance test applied by `i2a` to a single address entry:
`if aip and atype == 'ipv4':` followed by the `127.` / `169.254.` skip. -/
def acceptAddr (atype aip : String) : Bool :=
  aip != "" && atype == "ipv4" &&
    !(pyStartsWith aip "127." || pyStartsWith aip "169.254.")

/-- The addresses `i2a`'s accumulation loop appends for one interface:
skip the interface when its lowered name is a loopback name, skip it when
it has no `ip-addresses` key, and otherwise keep the accepted entries in
presentation order. -/
def interfaceAddrs (iface : Interface) : List String :=
  if pyLower (iface.name.getD "") ∈ loopbackNames then []
  else
    match iface.ipAddresses with
    | none => []
    | some entries =>
      entries.filterMap fun e =>
        let atype := e.ipAddressType.getD ""
        let aip := e.ipAddress.getD ""
        if acceptAddr atype aip then some aip else none

/-- The full accumulation loop of `i2a` over all interfaces (the contents
of `addrs` just before `addrs.sort(key=priority)` runs). -/
def extractAddrs (interfaces : List Interface) : List String :=
  interfaces.flatMap interfaceAddrs

/-- The second dotted component `parts[1]` of `parts = ip.split('.')`
(read under the `len(parts) >= 2` guard, so the default never shows). -/
def secondPart (ip : String) : List Char :=
  (splitDotChars ip.data).getD 1 []

/-- The `priority` key function nested in `i2a`. `none` models the
`ValueError` that `int(parts[1])` raises when the second dotted component
of a `172.`-prefixed address is not an integer literal. -/
def priority (ip : String) : Option Nat :=
  if pyStartsWith ip "10." then some 0
  else if pyStartsWith ip "192.168." then some 1
  else if pyStartsWith ip "172." then
    if (splitDotChars ip.data).length ≥ 2 then
      match pyIntChars (secondPart ip) with
      | some v => if 16 ≤ v ∧ v ≤ 31 then some 2 else some 3
      | none => none
    else some 3
  else some 3

/-- The priority class of an address on which `priority` does not raise
(total companion of `priority`, used to phrase the sort). -/
def prioD (ip : String) : Nat := (priority ip).getD 3

/-- Python's `list.sort(key=priority)` is a stable sort by the four-valued
key; for such a key the stable sort of a list is exactly the concatenation
of its priority classes in input order. -/
def sortByPriority (addrs : List String) : List String :=
  (addrs.filter fun a => prioD a == 0) ++
  (addrs.filter fun a => prioD a == 1) ++
  (addrs.filter fun a => prioD a == 2) ++
  (addrs.filter fun a => prioD a == 3)

/-- `i2a(module, interfaces)`: extract the accepted IPv4 addresses and sort
them by `priority`. The result is `none` when the sort's key function
raises `ValueError` on some accepted address (an uncaught exception in the
source). -/
def i2a (interfaces : List Interface) : Option (List String) :=
  match (extractAddrs interfaces).mapM priority with
  | some _ => some (sortByPriority (extractAddrs interfaces))
  | none => none

/-- One reply of `proxmox_node.tasks(taskid).status.get()`: the task's
`status` and `exitstatus` fields. -/
structure TaskStatus where
  status : String
  exitstatus : String
deriving DecidableEq, Repr

/-- Outcome of `start_vm`: either a normal return (carrying the number of
`time.sleep(1)` calls performed, the last of which is the post-success
grace delay) or a `module.fail_json` with its message. -/
inductive StartOutcome where
  | ok (sleeps : Nat)
  | failed (msg : String)
deriving DecidableEq, Repr

/-- The single-quote character, used by the Python `str()` rendering of a
list of strings. -/
def sq : String := String.singleton (Char.ofNat 39)

/-- Python `str()` of a list of strings, as interpolated by
`'...: {1}'.format(vmid, lastlog)`. -/
def pyStrList (xs : List String) : String :=
  "[" ++ String.intercalate ", " (xs.map fun s => sq ++ s ++ sq) ++ "]"

/-- The `fail_json` message built by `start_vm` on timeout:
`'Timeout while starting vmid {0}: {1}'.format(vmid, lastlog)` where
`lastlog` is the first element (`[:1]`) of the task log. Task log entries
are modelled as plain strings. -/
def startTimeoutMsg (vmid : Nat) (logs : List String) : String :=
  "Timeout while starting vmid " ++ toString vmid ++ ": " ++
    pyStrList (logs.take 1)

/-- The `while timeout:` loop of `start_vm`. `taskPoll n` is the reply of
the `n`-th status poll of the submitted start task (counting from the
current iteration; the recursive call shifts the oracle). `sleeps`
accumulates the `time.sleep(1)` calls executed so far. The countdown is
the loop's `timeout` variable: it is decremented after every unsuccessful
poll, and the loop breaks out to `fail_json` when it reaches zero. -/
def startVmLoop (vmid : Nat) (logs : List String) :
    (Nat → TaskStatus) → Nat → Nat → StartOutcome
  | _, _, 0 => .failed (startTimeoutMsg vmid logs)
  | taskPoll, sleeps, t + 1 =>
    let task := taskPoll 0
    if task.status == "stopped" && task.exitstatus == "OK" then
      .ok (sleeps + 1)
    else if t == 0 then .failed (startTimeoutMsg vmid logs)
    else startVmLoop vmid logs (fun n => taskPoll (n + 1)) (sleeps + 1) t

/-- `start_vm(module, proxmox, vm)`: submit the start task and wait for it.
The countdown is initialised from `module.params['timeout']` — the full
configured timeout parameter, not any caller-side remainder. -/
def start_vm (vmid : Nat) (taskPoll : Nat → TaskStatus) (logs : List String)
    (paramsTimeout : Nat) : StartOutcome :=
  startVmLoop vmid logs taskPoll 0 paramsTimeout

/-- One outcome of the guest-agent `network-get-interfaces` call inside
`query_vm`'s `try` block: either a reply (`result` is the reply's
`result` field; `none` covers a falsy reply or one without a `result`
key), or a raised `proxmoxer` `ResourceException` carrying its HTTP status
code, its `content`, and its `str(e)` rendering. -/
inductive AgentReply where
  | ok (result : Option (List Interface))
  | exc (statusCode : Nat) (content : String) (strE : String)

/-- Outcome of `query_vm`: a normal return carrying the address list and
the value of the `timeout` countdown at the return point, a
`module.fail_json` with its message, or an uncaught `ValueError` escaping
from `i2a`'s sort key. -/
inductive QueryOutcome where
  | ok (addresses : List String) (remaining : Nat)
  | failed (msg : String)
  | pythonError
deriving DecidableEq, Repr

/-- The `fail_json` message built by `query_vm` on timeout:
`'Timeout while waiting for vmid {0} IP address'.format(vmid)`. -/
def queryTimeoutMsg (vmid : Nat) : String :=
  "Timeout while waiting for vmid " ++ toString vmid ++ " IP address"

/-- The substring that `query_vm` looks for in a 500 reply to detect the
"VM is not running" condition. -/
def vmNotRunningNeedle (vmid : Nat) : String :=
  "VM " ++ toString vmid ++ " is not running"

/-- What `query_vm`'s `except ResourceException` clause decides to do. -/
inductive ExcAction where
  | startTheVm
  | retry
  | fatal (msg : String)
deriving DecidableEq, Repr

/-- The exception dispatch of `query_vm`: a 500 whose content mentions
"VM {vmid} is not running" starts the VM; a 500 whose content mentions
"QEMU guest agent is not running" is passed over; anything else is
`module.fail_json(msg=str(e))`. -/
def dispatchExc (vmid statusCode : Nat) (content strE : String) : ExcAction :=
  if statusCode == 500 && pyIn (vmNotRunningNeedle vmid) content then
    .startTheVm
  else if statusCode == 500 && pyIn "QEMU guest agent is not running" content then
    .retry
  else .fatal strE

/-- The `if reply and 'result' in reply:` block of `query_vm`'s loop body:
`some` when the iteration ends the loop (a non-empty ranked list returned
with the countdown still at `rem`, or a `ValueError` escaping from `i2a`),
`none` when the loop goes on. -/
def replyFound (replyResult : Option (List Interface)) (rem : Nat) :
    Option QueryOutcome :=
  match replyResult with
  | some interfaces =>
    match i2a interfaces with
    | none => some .pythonError
    | some addresses =>
      if addresses.length > 0 then some (.ok addresses rem) else none
  | none => none

/-- The `try`/`except` part of one `query_vm` iteration, acting on the
outcome of this iteration's guest-agent call: `.ok` carries the value the
loop's `reply` variable holds afterwards (`none` after a handled
exception), `.error` is a `module.fail_json` ending the call (either the
unexpected-failure `str(e)` or a timeout inside `start_vm`). A "VM is not
running" dispatch runs `start_vm`, whose countdown is freshly initialised
from `module.params['timeout']`. -/
def queryStep (vmid paramsTimeout : Nat) (taskPoll : Nat → TaskStatus)
    (logs : List String) (reply : AgentReply) :
    Except String (Option (List Interface)) :=
  match reply with
  | .ok r => .ok r
  | .exc statusCode content strE =>
    match dispatchExc vmid statusCode content strE with
    | .startTheVm =>
      match start_vm vmid taskPoll logs paramsTimeout with
      | .ok _ => .ok none
      | .failed m => .error m
    | .retry => .ok none
    | .fatal m => .error m

/-- The `while timeout:` loop of `query_vm`. `replies n` is the outcome of
the `n`-th guest-agent query (from the current iteration; the recursive
call shifts the oracle). Each iteration queries the agent, handles a
raised `ResourceException` via `queryStep`, then returns the ranked
addresses when the reply carried a `result` whose ranked list is
non-empty, and otherwise decrements the countdown, breaking out to
`fail_json` at zero. -/
def queryVmLoop (vmid paramsTimeout : Nat) (taskPoll : Nat → TaskStatus)
    (logs : List String) : (Nat → AgentReply) → Nat → QueryOutcome
  | _, 0 => .failed (queryTimeoutMsg vmid)
  | replies, t + 1 =>
    match queryStep vmid paramsTimeout taskPoll logs (replies 0) with
    | .error m => .failed m
    | .ok replyResult =>
      match replyFound replyResult (t + 1) with
      | some out => out
      | none =>
        if t == 0 then .failed (queryTimeoutMsg vmid)
        else queryVmLoop vmid paramsTimeout taskPoll logs
          (fun n => replies (n + 1)) t

/-- `query_vm(module, proxmox, vm)`: poll the guest agent for addresses.
Its countdown is initialised from `module.params['timeout']`, separately
from the countdown that `start_vm` initialises for itself. -/
def query_vm (vmid paramsTimeout : Nat) (replies : Nat → AgentReply)
    (taskPoll : Nat → TaskStatus) (logs : List String) : QueryOutcome :=
  queryVmLoop vmid paramsTimeout taskPoll logs replies paramsTimeout

/-- Modelled from the spec: the Task Waiter drawing on the shared Poll
Budget ("a single countdown integer (seconds) shared across both polling
phases within one invocation; decremented once per iteration"). It is the
task-wait loop of `start_vm` except that it receives the budget that
remains in the caller and hands the unconsumed part back. -/
def startVmSharedLoop (vmid : Nat) (logs : List String) :
    (Nat → TaskStatus) → Nat → StartOutcome × Nat
  | _, 0 => (.failed (startTimeoutMsg vmid logs), 0)
  | taskPoll, t + 1 =>
    let task := taskPoll 0
    if task.status == "stopped" && task.exitstatus == "OK" then
      (.ok 1, t + 1)
    else if t == 0 then (.failed (startTimeoutMsg vmid logs), 0)
    else startVmSharedLoop vmid logs (fun n => taskPoll (n + 1)) t

/-- Modelled from the spec: the Guest-Agent Poller running against the
single shared Poll Budget. It differs from `queryVmLoop` in exactly one
place: a "VM is not running" condition invokes the shared-budget Task
Waiter on the countdown that remains here, and polling resumes with
whatever that phase left over, instead of `start_vm` initialising a
countdown of its own from the timeout parameter. The extra `fuel`
argument only makes the recursion structural: the budget can fall by more
than one when the Task Waiter consumed several seconds of it, and the
budget never exceeds the fuel when both start out equal. -/
def queryVmSharedLoop (vmid : Nat) (taskPoll : Nat → TaskStatus)
    (logs : List String) : (Nat → AgentReply) → Nat → Nat → QueryOutcome
  | _, _, 0 => .failed (queryTimeoutMsg vmid)
  | _, 0, _ + 1 => .failed (queryTimeoutMsg vmid)
  | replies, f + 1, t + 1 =>
    match replies 0 with
    | .ok replyResult =>
      match replyFound replyResult (t + 1) with
      | some out => out
      | none =>
        if t == 0 then .failed (queryTimeoutMsg vmid)
        else queryVmSharedLoop vmid taskPoll logs (fun n => replies (n + 1)) f t
    | .exc statusCode content strE =>
      match dispatchExc vmid statusCode content strE with
      | .fatal m => .failed m
      | .retry =>
        if t == 0 then .failed (queryTimeoutMsg vmid)
        else queryVmSharedLoop vmid taskPoll logs (fun n => replies (n + 1)) f t
      | .startTheVm =>
        match startVmSharedLoop vmid logs taskPoll (t + 1) with
        | (.failed m, _) => .failed m
        | (.ok _, rem) =>
          if rem - 1 == 0 then .failed (queryTimeoutMsg vmid)
          else queryVmSharedLoop vmid taskPoll logs
            (fun n => replies (n + 1)) f (rem - 1)

/-- Modelled from the spec: `query_vm` with the shared Poll Budget. -/
def queryVmShared (vmid budget : Nat) (replies : Nat → AgentReply)
    (taskPoll : Nat → TaskStatus) (logs : List String) : QueryOutcome :=
  queryVmSharedLoop vmid taskPoll logs replies budget budget

/-- One record of `proxmox.cluster.resources.get(type='vm')`: the fields
`get_vm` and `start_vm` use. -/
structure VmResource where
  vmid : Nat
  node : String
deriving DecidableEq, Repr

/-- `get_vm(module, proxmox, vmid)`: look up a VM by id among the cluster
resources; `fail_json` when none or more than one matches. -/
def get_vm (vmid : Nat) (resources : List VmResource) :
    Except String VmResource :=
  match resources.filter (fun vm => vm.vmid == vmid) with
  | [] => .error ("VM with vmid = " ++ toString vmid ++ " not found")
  | [vm] => .ok vm
  | _ => .error ("Multiple VMs with vmid = " ++ toString vmid ++ " found")

/-- The `result` dict that `run_module` passes to `module.exit_json`. -/
structure ModuleResult where
  changed : Bool
  vmid : Nat
  addresses : List String
deriving DecidableEq, Repr

/-- How a module invocation ends: `module.exit_json(**result)`,
`module.fail_json(msg=...)`, or an uncaught Python exception. -/
inductive RunOutcome where
  | exitJson (result : ModuleResult)
  | failJson (msg : String)
  | pythonError
deriving DecidableEq, Repr

/-- `run_module()` after a successful API login: initialise
`result = dict(changed=False, vmid=0, addresses=[])`, look up the VM,
poll for addresses, fill in `vmid` and `addresses` (never touching
`changed`), and `exit_json`. -/
def run_module (vmid paramsTimeout : Nat) (resources : List VmResource)
    (replies : Nat → AgentReply) (taskPoll : Nat → TaskStatus)
    (logs : List String) : RunOutcome :=
  match get_vm vmid resources with
  | .error m => .failJson m
  | .ok vm =>
    match query_vm vm.vmid paramsTimeout replies taskPoll logs with
    | .ok addresses _ => .exitJson ⟨false, vmid, addresses⟩
    | .failed m => .failJson m
    | .pythonError => .pythonError

/-- A Python dict with string keys and values, as an association list
(first binding wins, as in a dict). Used for the driver's on-disk
instance records. -/
abbrev PyDict : Type := List (String × String)

/-- `d.get(k)` / `d[k]` lookup (the `Option` distinguishes a missing key). -/
def dictGet (d : PyDict) (k : String) : Option String :=
  (List.find? (fun p => p.1 == k) d).map (fun p => p.2)

/-- The Python exceptions the driver's lookup can raise. -/
inductive PyExc where
  | ioError
  | stopIteration
  | keyError (key : String)
deriving DecidableEq, Repr

/-- `util.safe_load_file(self._config.driver.instance_config)`: the
instance-config file content is passed in as `none` when the file does not
exist on disk (an `IOError`) and `some records` otherwise. -/
def safe_load_file (file : Option (List PyDict)) :
    Except PyExc (List PyDict) :=
  match file with
  | none => .error .ioError
  | some records => .ok records

/-- The generator search `next(item for item in records if
item["instance"] == instance_name)`: `KeyError` when a record has no
`instance` key, `StopIteration` when no record matches. -/
def findInstance (instanceName : String) :
    List PyDict → Except PyExc PyDict
  | [] => .error .stopIteration
  | r :: rs =>
    match dictGet r "instance" with
    | none => .error (.keyError "instance")
    | some v =>
      if v == instanceName then .ok r else findInstance instanceName rs

/-- `Proxmox._get_instance_config(instance_name)`. -/
def _get_instance_config (file : Option (List PyDict))
    (instanceName : String) : Except PyExc PyDict :=
  match safe_load_file file with
  | .error e => .error e
  | .ok records => findInstance instanceName records

/-- Required dict indexing `d[k]` inside the connection-option builders:
raises `KeyError` when the key is missing. -/
def pyIndex (d : PyDict) (k : String) : Except PyExc String :=
  match dictGet d k with
  | none => .error (.keyError k)
  | some v => .ok v

/-- The dict literal built by `ansible_connection_options` for the
resolved instance config `d` (values are `Option` because
`d.get("password")` may put a `None` in the mapping). -/
def buildConnOpts (d : PyDict) (sshConnectionOptions : List String) :
    Except PyExc (List (String × Option String)) :=
  let osType := (dictGet d "os_type").getD "linux"
  if osType == "windows" then do
    let user ← pyIndex d "user"
    let address ← pyIndex d "address"
    let port ← pyIndex d "port"
    pure [("ansible_user", some user),
          ("ansible_host", some address),
          ("ansible_port", some port),
          ("ansible_password", dictGet d "password"),
          ("connection", some "winrm"),
          ("ansible_winrm_transport",
            some ((dictGet d "winrm_transport").getD "ntlm")),
          ("ansible_winrm_server_cert_validation",
            some ((dictGet d "winrm_cert_validation").getD "ignore"))]
  else do
    let user ← pyIndex d "user"
    let address ← pyIndex d "address"
    let port ← pyIndex d "port"
    let identityFile ← pyIndex d "identity_file"
    pure [("ansible_user", some user),
          ("ansible_host", some address),
          ("ansible_port", some port),
          ("ansible_private_key_file", some identityFile),
          ("connection", some "ssh"),
          ("ansible_ssh_common_args",
            some (String.intercalate " " sshConnectionOptions))]

/-- `Proxmox.ansible_connection_options(instance_name)`: build the per-OS
mapping from the instance record, returning `{}` when the record file is
missing (`IOError`) or holds no matching instance (`StopIteration`); a
`KeyError` is not caught and escapes. -/
def ansible_connection_options (file : Option (List PyDict))
    (instanceName : String) (sshConnectionOptions : List String) :
    Except PyExc (List (String × Option String)) :=
  match
    (do
      let d ← _get_instance_config file instanceName
      buildConnOpts d sshConnectionOptions :
      Except PyExc (List (String × Option String)))
  with
  | .ok opts => .ok opts
  | .error .stopIteration => .ok []
  | .error .ioError => .ok []
  | .error e => .error e

/-- The success test of `start_vm`'s loop on the `i`-th status poll:
`task['status'] == 'stopped' and task['exitstatus'] == 'OK'`. -/
abbrev taskOkAt (taskPoll : Nat → TaskStatus) (i : Nat) : Prop :=
  (taskPoll i).status = "stopped" ∧ (taskPoll i).exitstatus = "OK"

/-- The three-interface input of the spec's worked ranker example. -/
def exampleIfaces : List Interface :=
  [⟨some "lo", some [⟨some "ipv4", some "127.0.0.1"⟩]⟩,
   ⟨some "eth0", some [⟨some "ipv4", some "192.168.1.5"⟩]⟩,
   ⟨some "eth1", some [⟨some "ipv4", some "10.0.0.9"⟩]⟩]

/-- A reply whose ranked list is the single address `10.0.0.9`. -/
def goodReply : AgentReply :=
  .ok (some [⟨some "eth1", some [⟨some "ipv4", some "10.0.0.9"⟩]⟩])

/-- Query oracle: one "VM is not running" failure, then good replies. -/
def vmDownThenGood : Nat → AgentReply := fun n =>
  if n == 0 then .exc 500 "VM 7 is not running" "vm down" else goodReply

/-- Query oracle of the spec's worked poller scenario: one "VM is not
running" failure, two "guest agent is not running" failures, then a good
reply. -/
def scenarioReplies : Nat → AgentReply := fun n =>
  if n == 0 then .exc 500 "VM 7 is not running" "vm down"
  else if n ≤ 2 then .exc 500 "QEMU guest agent is not running" "agent down"
  else goodReply

/-- Query oracle that always reports the guest agent as not running. -/
def agentNeverUp : Nat → AgentReply := fun _ =>
  .exc 500 "QEMU guest agent is not running" "agent down"

/-- Task oracle: the start task needs two polls (one unsuccessful, hence
one budget decrement) before reporting `stopped`/`OK`. -/
def taskOkSecondPoll : Nat → TaskStatus := fun n =>
  if n == 0 then ⟨"running", ""⟩ else ⟨"stopped", "OK"⟩

/-- Task oracle: the start task is already `stopped`/`OK` at the first
poll (a simulated start that completes at once). -/
def taskOkFirstPoll : Nat → TaskStatus := fun _ => ⟨"stopped", "OK"⟩

/-- Task oracle: the start task needs three polls (two budget decrements)
before reporting `stopped`/`OK`. -/
def taskOkThirdPoll : Nat → TaskStatus := fun n =>
  if n ≤ 1 then ⟨"running", ""⟩ else ⟨"stopped", "OK"⟩

/-- Task oracle: the task ends in an explicit non-OK terminal state. -/
def taskStoppedError : Nat → TaskStatus := fun _ => ⟨"stopped", "some error"⟩

/-- Task oracle: the task never reaches a terminal state. -/
def taskNeverDone : Nat → TaskStatus := fun _ => ⟨"running", ""⟩

/-! Lemmas about the Address Extractor/Ranker. -/

theorem mem_sortByPriority {a : String} {l : List String}
    (h : a ∈ sortByPriority l) : a ∈ l := by
  unfold sortByPriority at h
  simp only [List.mem_append, List.mem_filter] at h
  tauto

theorem acceptAddr_true {atype aip : String}
    (h : acceptAddr atype aip = true) :
    aip ≠ "" ∧ atype = "ipv4" ∧ pyStartsWith aip "127." = false ∧
      pyStartsWith aip "169.254." = false := by
  unfold acceptAddr at h
  simp only [Bool.and_eq_true, bne_iff_ne, beq_iff_eq, Bool.not_eq_eq_eq_not,
    Bool.not_true, Bool.or_eq_false_iff] at h
  tauto

theorem mem_interfaceAddrs {a : String} {iface : Interface}
    (h : a ∈ interfaceAddrs iface) :
    pyLower (iface.name.getD "") ∉ loopbackNames ∧
      ∃ entries, iface.ipAddresses = some entries ∧
        ∃ e ∈ entries, e.ipAddressType.getD "" = "ipv4" ∧
          e.ipAddress.getD "" = a ∧ acceptAddr "ipv4" a = true := by
  unfold interfaceAddrs at h
  split at h
  · simp at h
  · next hname =>
    split at h
    · simp at h
    · next entries hent =>
      simp only [List.mem_filterMap] at h
      obtain ⟨e, he, heq⟩ := h
      split at heq
      · next hacc =>
        obtain rfl : e.ipAddress.getD "" = a := Option.some.inj heq
        have htype : e.ipAddressType.getD "" = "ipv4" := (acceptAddr_true hacc).2.1
        rw [htype] at hacc
        exact ⟨hname, entries, hent, e, he, htype, rfl, hacc⟩
      · cases heq

theorem mem_extractAddrs {a : String} {interfaces : List Interface}
    (h : a ∈ extractAddrs interfaces) :
    ∃ iface ∈ interfaces, a ∈ interfaceAddrs iface := by
  unfold extractAddrs at h
  exact List.mem_flatMap.1 h

theorem i2a_eq_some {interfaces : List Interface} {out : List String}
    (h : i2a interfaces = some out) :
    out = sortByPriority (extractAddrs interfaces) := by
  unfold i2a at h
  split at h
  · exact (Option.some.inj h).symm
  · cases h

/-- C2: the Address Extractor/Ranker never returns an address beginning
with `127.` or `169.254.`, never an empty literal, and every returned
address is witnessed by an entry whose family label is exactly `ipv4` on
an interface whose lowered name is not `lo`/`loopback`. -/
theorem c2_ranker_filters (interfaces : List Interface) (out : List String)
    (hout : i2a interfaces = some out) :
    ∀ a ∈ out,
      a ≠ "" ∧ pyStartsWith a "127." = false ∧
        pyStartsWith a "169.254." = false ∧
        ∃ iface ∈ interfaces,
          pyLower (iface.name.getD "") ∉ loopbackNames ∧
          ∃ entries, iface.ipAddresses = some entries ∧
            ∃ e ∈ entries, e.ipAddressType.getD "" = "ipv4" ∧
              e.ipAddress.getD "" = a := by
  intro a ha
  rw [i2a_eq_some hout] at ha
  obtain ⟨iface, hif, hmem⟩ := mem_extractAddrs (mem_sortByPriority ha)
  obtain ⟨hname, entries, hent, e, he, htype, hval, hacc⟩ :=
    mem_interfaceAddrs hmem
  obtain ⟨hne, -, h127, h169⟩ := acceptAddr_true hacc
  exact ⟨hne, h127, h169, iface, hif, hname, entries, hent, e, he, htype, hval⟩

/-- Witness for `c2_ranker_filters` at the spec's worked example. -/
theorem c2_ranker_filters_witness : ("10.0.0.9" : String) ≠ "" :=
  (c2_ranker_filters exampleIfaces ["10.0.0.9", "192.168.1.5"] (by decide)
    "10.0.0.9" (by decide)).1

theorem prioD_le_three (ip : String) : prioD ip ≤ 3 := by
  unfold prioD priority
  repeat' split
  all_goals decide

theorem mem_filter_prioD {l : List String} {c : Nat} {a : String}
    (h : a ∈ l.filter fun x => prioD x == c) : prioD a = c := by
  rw [List.mem_filter] at h
  simpa using h.2

theorem sortByPriority_pairwise (l : List String) :
    (sortByPriority l).Pairwise fun a b => prioD a ≤ prioD b := by
  have hpw : ∀ c : Nat,
      (l.filter fun x => prioD x == c).Pairwise fun a b => prioD a ≤ prioD b := by
    intro c
    apply List.pairwise_of_forall_mem_list
    intro a ha b hb
    rw [mem_filter_prioD ha, mem_filter_prioD hb]
  have hcross : ∀ c d : Nat, c ≤ d →
      ∀ a ∈ (l.filter fun x => prioD x == c),
        ∀ b ∈ (l.filter fun x => prioD x == d), prioD a ≤ prioD b := by
    intro c d hcd a ha b hb
    rw [mem_filter_prioD ha, mem_filter_prioD hb]
    exact hcd
  unfold sortByPriority
  refine List.pairwise_append.2
    ⟨List.pairwise_append.2
      ⟨List.pairwise_append.2 ⟨hpw 0, hpw 1, hcross 0 1 (by omega)⟩,
        hpw 2, ?_⟩,
      hpw 3, ?_⟩
  · intro a ha b hb
    rcases List.mem_append.1 ha with ha | ha
    · exact hcross 0 2 (by omega) a ha b hb
    · exact hcross 1 2 (by omega) a ha b hb
  · intro a ha b hb
    rcases List.mem_append.1 ha with ha | ha
    · rcases List.mem_append.1 ha with ha | ha
      · exact hcross 0 3 (by omega) a ha b hb
      · exact hcross 1 3 (by omega) a ha b hb
    · exact hcross 2 3 (by omega) a ha b hb

theorem filter_prioD_pair (l : List String) (c i : Nat) :
    (l.filter fun a => ((prioD a == c) && (prioD a == i))) =
      if i = c then l.filter (fun a => prioD a == c) else [] := by
  split
  · next h =>
    subst h
    exact List.filter_congr fun x _ => Bool.and_self _
  · next h =>
    refine List.filter_eq_nil_iff.2 ?_
    intro a _
    simp only [Bool.and_eq_true, beq_iff_eq, not_and]
    intro h1 h2
    omega

theorem sortByPriority_stable (l : List String) (c : Nat) :
    (sortByPriority l).filter (fun a => prioD a == c) =
      l.filter fun a => prioD a == c := by
  unfold sortByPriority
  rw [List.filter_append, List.filter_append, List.filter_append,
    List.filter_filter, List.filter_filter, List.filter_filter,
    List.filter_filter, filter_prioD_pair, filter_prioD_pair,
    filter_prioD_pair, filter_prioD_pair]
  rcases Nat.lt_or_ge c 4 with h4 | h4
  · interval_cases c <;> simp
  · have hnil : l.filter (fun a => prioD a == c) = [] := by
      refine List.filter_eq_nil_iff.2 ?_
      intro a _
      have := prioD_le_three a
      simp only [beq_iff_eq]
      omega
    rw [hnil]
    have h0 : ¬ (0 = c) := by omega
    have h1 : ¬ (1 = c) := by omega
    have h2 : ¬ (2 = c) := by omega
    have h3 : ¬ (3 = c) := by omega
    simp [h0, h1, h2, h3]

/-- C3: whenever the Ranker returns a list, that list is monotone in
priority class (every class-0 address precedes every class-1, and so on),
and for every class the returned addresses of that class appear in exactly
their input relative order (stability); on the spec's worked three-interface
example the result is exactly `["10.0.0.9", "192.168.1.5"]`. -/
theorem c3_ranker_sorted_stable :
    (∀ (interfaces : List Interface) (out : List String),
        i2a interfaces = some out →
          out.Pairwise (fun a b => prioD a ≤ prioD b) ∧
            ∀ c, out.filter (fun a => prioD a == c) =
              (extractAddrs interfaces).filter fun a => prioD a == c) ∧
      i2a exampleIfaces = some ["10.0.0.9", "192.168.1.5"] := by
  constructor
  · intro interfaces out hout
    rw [i2a_eq_some hout]
    exact ⟨sortByPriority_pairwise _, fun c => sortByPriority_stable _ c⟩
  · decide

/-- Witness for `c3_ranker_sorted_stable`: the class-0 addresses of the
worked example's output are exactly the class-0 addresses of its
pre-sort accumulation, in order. -/
theorem c3_ranker_sorted_stable_witness :
    (["10.0.0.9", "192.168.1.5"].filter fun a => prioD a == 0) =
      (extractAddrs exampleIfaces).filter fun a => prioD a == 0 :=
  (c3_ranker_sorted_stable.1 exampleIfaces ["10.0.0.9", "192.168.1.5"]
    (by decide)).2 0

/-- Counterexample to C4: `172.x.5.1` passes every acceptance filter, yet
the priority key raises `ValueError` on it (here: returns `none`), so the
Ranker errors out on a list containing it instead of ranking it as
class 3. -/
theorem c4_priority_not_total :
    acceptAddr "ipv4" "172.x.5.1" = true ∧
      priority "172.x.5.1" = none ∧
      i2a [⟨some "eth0", some [⟨some "ipv4", some "172.x.5.1"⟩]⟩] = none := by
  decide

/-- C4 (amended): on an address whose relevant dotted component parses,
the classification is as claimed — class 2 exactly when the address starts
with `172.` (and with no class-0/1 prefix) and its second dotted component
is an integer in `[16, 31]`, and `172.20.5.1` / `172.40.5.1` rank as
classes 2 / 3 — but a `172.`-prefixed address whose second dotted
component does not parse as an integer makes `priority` raise `ValueError`
instead of returning class 3. -/
theorem c4_priority_classification :
    (∀ ip : String,
        (priority ip = some 2 ↔
          pyStartsWith ip "10." = false ∧
          pyStartsWith ip "192.168." = false ∧
          pyStartsWith ip "172." = true ∧
          (splitDotChars ip.data).length ≥ 2 ∧
          ∃ v : Int, pyIntChars (secondPart ip) = some v ∧
            16 ≤ v ∧ v ≤ 31) ∧
        (priority ip = none ↔
          pyStartsWith ip "10." = false ∧
          pyStartsWith ip "192.168." = false ∧
          pyStartsWith ip "172." = true ∧
          (splitDotChars ip.data).length ≥ 2 ∧
          pyIntChars (secondPart ip) = none)) ∧
      priority "172.20.5.1" = some 2 ∧ priority "172.40.5.1" = some 3 := by
  refine ⟨?_, by decide, by decide⟩
  intro ip
  by_cases h10 : pyStartsWith ip "10." = true
  · simp [priority, h10]
  · have h10f : pyStartsWith ip "10." = false := by simpa using h10
    by_cases h192 : pyStartsWith ip "192.168." = true
    · simp [priority, h10f, h192]
    · have h192f : pyStartsWith ip "192.168." = false := by simpa using h192
      by_cases h172 : pyStartsWith ip "172." = true
      · by_cases hlen : (splitDotChars ip.data).length ≥ 2
        · rcases hv : pyIntChars (secondPart ip) with - | v
          · have hpr : priority ip = none := by
              simp [priority, h10f, h192f, h172, hlen, hv]
            rw [hpr]
            constructor
            · constructor
              · intro hcontr
                cases hcontr
              · rintro ⟨-, -, -, -, w, hw, -, -⟩
                cases hw
            · constructor
              · intro _
                exact ⟨h10f, h192f, h172, hlen, rfl⟩
              · intro _
                rfl
          · by_cases hr : 16 ≤ v ∧ v ≤ 31
            · have hpr : priority ip = some 2 := by
                simp [priority, h10f, h192f, h172, hlen, hv, hr]
              rw [hpr]
              constructor
              · constructor
                · intro _
                  exact ⟨h10f, h192f, h172, hlen, v, rfl, hr.1, hr.2⟩
                · intro _
                  rfl
              · constructor
                · intro hcontr
                  cases hcontr
                · rintro ⟨-, -, -, -, hw⟩
                  cases hw
            · have hpr : priority ip = some 3 := by
                simp [priority, h10f, h192f, h172, hlen, hv, hr]
              rw [hpr]
              constructor
              · constructor
                · intro hcontr
                  simp at hcontr
                · rintro ⟨-, -, -, -, w, hw, hw1, hw2⟩
                  obtain rfl : v = w := Option.some.inj hw
                  exact absurd ⟨hw1, hw2⟩ hr
              · constructor
                · intro hcontr
                  cases hcontr
                · rintro ⟨-, -, -, -, hw⟩
                  cases hw
        · simp [priority, h10f, h192f, h172, hlen]
      · have h172f : pyStartsWith ip "172." = false := by simpa using h172
        simp [priority, h10f, h192f, h172f]

/-- Witness for `c4_priority_classification` at the claim's own example
address: instantiating the class-2 characterisation at `172.20.5.1`. -/
theorem c4_priority_classification_witness :
    pyStartsWith "172.20.5.1" "172." = true :=
  (((c4_priority_classification.1 "172.20.5.1").1.1 (by decide)).2.2).1

/-! Lemmas about the Task Waiter (`start_vm`). -/

theorem startVmLoop_ok (vmid : Nat) (logs : List String) :
    ∀ (t : Nat) (taskPoll : Nat → TaskStatus) (sleeps j : Nat),
      j < t → taskOkAt taskPoll j → (∀ k < j, ¬ taskOkAt taskPoll k) →
      startVmLoop vmid logs taskPoll sleeps t = .ok (sleeps + j + 1) := by
  intro t
  induction t with
  | zero =>
    intro _ _ j hj
    exact absurd hj (Nat.not_lt_zero j)
  | succ t ih =>
    intro taskPoll sleeps j hj hok hmin
    unfold startVmLoop
    by_cases h0 : taskOkAt taskPoll 0
    · have hj0 : j = 0 := by
        by_contra hne
        exact hmin 0 (by omega) h0
      subst hj0
      have hb : ((taskPoll 0).status == "stopped" &&
          (taskPoll 0).exitstatus == "OK") = true := by
        simp only [Bool.and_eq_true, beq_iff_eq]
        exact h0
      simp [hb]
    · have hb : ((taskPoll 0).status == "stopped" &&
          (taskPoll 0).exitstatus == "OK") = false := by
        simp only [taskOkAt] at h0
        simp only [Bool.and_eq_false_imp, beq_iff_eq]
        intro hs
        rcases Decidable.em ((taskPoll 0).exitstatus = "OK") with he | he
        · exact absurd ⟨hs, he⟩ h0
        · simpa using he
      have hj1 : 1 ≤ j := by
        rcases Nat.eq_zero_or_pos j with rfl | h
        · exact absurd hok h0
        · exact h
      have ht : (t == 0) = false := by
        simp only [beq_eq_false_iff_ne, ne_eq]
        omega
      simp only [hb, Bool.false_eq_true, if_false, ht]
      have hok2 : taskOkAt (fun n => taskPoll (n + 1)) (j - 1) := by
        show taskOkAt taskPoll (j - 1 + 1)
        have hjj : j - 1 + 1 = j := by omega
        rw [hjj]
        exact hok
      have hmin2 : ∀ k < j - 1, ¬ taskOkAt (fun n => taskPoll (n + 1)) k := by
        intro k hk
        exact hmin (k + 1) (by omega)
      have hrec := ih (fun n => taskPoll (n + 1)) (sleeps + 1) (j - 1)
        (by omega) hok2 hmin2
      rw [hrec]
      congr 1
      omega

theorem startVmLoop_timeout (vmid : Nat) (logs : List String) :
    ∀ (t : Nat) (taskPoll : Nat → TaskStatus) (sleeps : Nat),
      (∀ j < t, ¬ taskOkAt taskPoll j) →
      startVmLoop vmid logs taskPoll sleeps t =
        .failed (startTimeoutMsg vmid logs) := by
  intro t
  induction t with
  | zero => intro _ _ _; rfl
  | succ t ih =>
    intro taskPoll sleeps hmin
    unfold startVmLoop
    have h0 := hmin 0 (by omega)
    have hb : ((taskPoll 0).status == "stopped" &&
        (taskPoll 0).exitstatus == "OK") = false := by
      simp only [taskOkAt] at h0
      simp only [Bool.and_eq_false_imp, beq_iff_eq]
      intro hs
      rcases Decidable.em ((taskPoll 0).exitstatus = "OK") with he | he
      · exact absurd ⟨hs, he⟩ h0
      · simpa using he
    simp only [hb, Bool.false_eq_true, if_false]
    by_cases ht : t = 0
    · subst ht
      simp
    · have ht2 : (t == 0) = false := by
        simp only [beq_eq_false_iff_ne, ne_eq]
        omega
      simp only [ht2, Bool.false_eq_true, if_false]
      exact ih _ _ (fun j hj => by simpa using hmin (j + 1) (by omega))

/-- C5: the Task Waiter returns normally exactly when some status poll
within the budget reports `stopped`/`OK`; a success on poll `j` returns
after `j + 1` one-second sleeps, the last of which is the fixed grace
delay after observing success; and when the budget runs out with no
success it fails with the timeout message naming the VM id and the
`[:1]` excerpt of the task log. -/
theorem c5_task_waiter (vmid paramsTimeout : Nat)
    (taskPoll : Nat → TaskStatus) (logs : List String)
    (_hpos : 0 < paramsTimeout) :
    ((∃ s, start_vm vmid taskPoll logs paramsTimeout = .ok s) ↔
      ∃ j, j < paramsTimeout ∧ taskOkAt taskPoll j) ∧
    (∀ j, j < paramsTimeout → taskOkAt taskPoll j →
      (∀ k < j, ¬ taskOkAt taskPoll k) →
      start_vm vmid taskPoll logs paramsTimeout = .ok (j + 1)) ∧
    ((∀ j, j < paramsTimeout → ¬ taskOkAt taskPoll j) →
      start_vm vmid taskPoll logs paramsTimeout =
        .failed ("Timeout while starting vmid " ++ toString vmid ++ ": " ++
          pyStrList (logs.take 1))) := by
  have hok : ∀ j, j < paramsTimeout → taskOkAt taskPoll j →
      (∀ k < j, ¬ taskOkAt taskPoll k) →
      start_vm vmid taskPoll logs paramsTimeout = .ok (j + 1) := by
    intro j hj hokj hmin
    have := startVmLoop_ok vmid logs paramsTimeout taskPoll 0 j hj hokj hmin
    simpa using this
  refine ⟨?_, hok, fun hnone => startVmLoop_timeout vmid logs paramsTimeout
    taskPoll 0 (fun j hj => hnone j hj)⟩
  constructor
  · rintro ⟨s, hs⟩
    by_contra hno
    push_neg at hno
    have := startVmLoop_timeout vmid logs paramsTimeout taskPoll 0 hno
    rw [show start_vm vmid taskPoll logs paramsTimeout =
      startVmLoop vmid logs taskPoll 0 paramsTimeout from rfl, this] at hs
    cases hs
  · rintro ⟨j, hj, hokj⟩
    have hex : ∃ k, taskOkAt taskPoll k := ⟨j, hokj⟩
    refine ⟨Nat.find hex + 1, hok (Nat.find hex)
      (lt_of_le_of_lt (Nat.find_min' hex hokj) hj)
      (Nat.find_spec hex) (fun k hk => Nat.find_min hex hk)⟩

/-- Witness for `c5_task_waiter`: the task succeeds at the second poll of
a two-second budget, so the waiter returns after two sleeps (one between
polls, one grace delay). -/
theorem c5_task_waiter_witness :
    start_vm 7 taskOkSecondPoll ["start log"] 2 = .ok 2 :=
  (c5_task_waiter 7 2 taskOkSecondPoll ["start log"] (by decide)).2.1 1
    (by decide) (by decide) (by decide)

/-- C6: the Task Waiter never fails before its budget is exhausted: with
no `stopped`/`OK` poll inside the budget — in particular for a task that
terminated with `stopped` and a non-OK exit status — it behaves exactly as
for a task that never finished, waiting out the full budget and then
failing with the same timeout message. -/
theorem c6_no_fail_fast (vmid t : Nat) (p1 p2 : Nat → TaskStatus)
    (logs : List String)
    (h1 : ∀ j < t, ¬ taskOkAt p1 j) (h2 : ∀ j < t, ¬ taskOkAt p2 j) :
    start_vm vmid p1 logs t = start_vm vmid p2 logs t ∧
      start_vm vmid p1 logs t = .failed (startTimeoutMsg vmid logs) := by
  have e1 := startVmLoop_timeout vmid logs t p1 0 h1
  have e2 := startVmLoop_timeout vmid logs t p2 0 h2
  exact ⟨e1.trans e2.symm, e1⟩

/-- Witness for `c6_no_fail_fast`: a task stuck in an explicit
`stopped`/non-OK state for a three-second budget fails exactly like one
that never finishes. -/
theorem c6_no_fail_fast_witness :
    start_vm 7 taskStoppedError ["boot log"] 3 =
      start_vm 7 taskNeverDone ["boot log"] 3 :=
  (c6_no_fail_fast 7 3 taskStoppedError taskNeverDone ["boot log"]
    (by decide) (by decide)).1

/-! Lemmas about the Guest-Agent Poller (`query_vm`). -/

theorem queryVmLoop_succ (vmid paramsTimeout : Nat)
    (taskPoll : Nat → TaskStatus) (logs : List String)
    (replies : Nat → AgentReply) (t : Nat) :
    queryVmLoop vmid paramsTimeout taskPoll logs replies (t + 1) =
      match queryStep vmid paramsTimeout taskPoll logs (replies 0) with
      | .error m => .failed m
      | .ok replyResult =>
        match replyFound replyResult (t + 1) with
        | some out => out
        | none =>
          if t == 0 then .failed (queryTimeoutMsg vmid)
          else queryVmLoop vmid paramsTimeout taskPoll logs
            (fun n => replies (n + 1)) t := rfl

/-- C7: the Guest-Agent Poller's exception dispatch. A 500 carrying the
"guest agent not running" condition (and not the "VM not running" one) is
silently retried: the iteration just moves to the next query. A 500
carrying the "VM {vmid} is not running" condition triggers `start_vm` and,
when the start succeeds, polling resumes with the next query (a failed
start propagates its `fail_json`). Every other query failure ends the call
at once with `str(e)` as the message, regardless of the remaining
countdown. -/
theorem c7_error_dispatch (vmid paramsTimeout : Nat)
    (taskPoll : Nat → TaskStatus) (logs : List String)
    (replies : Nat → AgentReply) (statusCode : Nat) (content strE : String)
    (t : Nat) (hrep : replies 0 = .exc statusCode content strE) :
    (statusCode = 500 → pyIn (vmNotRunningNeedle vmid) content = false →
      pyIn "QEMU guest agent is not running" content = true →
      queryVmLoop vmid paramsTimeout taskPoll logs replies (t + 2) =
        queryVmLoop vmid paramsTimeout taskPoll logs
          (fun n => replies (n + 1)) (t + 1)) ∧
    (statusCode = 500 → pyIn (vmNotRunningNeedle vmid) content = true →
      (∀ s, start_vm vmid taskPoll logs paramsTimeout = .ok s →
        queryVmLoop vmid paramsTimeout taskPoll logs replies (t + 2) =
          queryVmLoop vmid paramsTimeout taskPoll logs
            (fun n => replies (n + 1)) (t + 1)) ∧
      (∀ m, start_vm vmid taskPoll logs paramsTimeout = .failed m →
        queryVmLoop vmid paramsTimeout taskPoll logs replies (t + 2) =
          .failed m)) ∧
    ((statusCode ≠ 500 ∨
        (pyIn (vmNotRunningNeedle vmid) content = false ∧
          pyIn "QEMU guest agent is not running" content = false)) →
      ∀ u, queryVmLoop vmid paramsTimeout taskPoll logs replies (u + 1) =
        .failed strE) := by
  have hnz : ∀ u : Nat, ((u + 1 : Nat) == 0) = false := by
    intro u
    simp
  refine ⟨?_, fun h500 hvm => ⟨?_, ?_⟩, ?_⟩
  · intro h500 hvm hag
    subst h500
    have hstep : queryStep vmid paramsTimeout taskPoll logs (replies 0) =
        .ok none := by
      rw [hrep]
      simp [queryStep, dispatchExc, hvm, hag]
    show queryVmLoop vmid paramsTimeout taskPoll logs replies ((t + 1) + 1) = _
    rw [queryVmLoop_succ, hstep]
    simp [replyFound, hnz]
  · subst h500
    intro s hstart
    have hstep : queryStep vmid paramsTimeout taskPoll logs (replies 0) =
        .ok none := by
      rw [hrep]
      simp [queryStep, dispatchExc, hvm, hstart]
    show queryVmLoop vmid paramsTimeout taskPoll logs replies ((t + 1) + 1) = _
    rw [queryVmLoop_succ, hstep]
    simp [replyFound, hnz]
  · subst h500
    intro m hstart
    have hstep : queryStep vmid paramsTimeout taskPoll logs (replies 0) =
        .error m := by
      rw [hrep]
      simp [queryStep, dispatchExc, hvm, hstart]
    show queryVmLoop vmid paramsTimeout taskPoll logs replies ((t + 1) + 1) = _
    rw [queryVmLoop_succ, hstep]
  · intro hother u
    have hstep : queryStep vmid paramsTimeout taskPoll logs (replies 0) =
        .error strE := by
      rw [hrep]
      rcases hother with h | ⟨hvm, hag⟩
      · have hb : (statusCode == 500) = false := by
          simp only [beq_eq_false_iff_ne, ne_eq]
          exact h
        simp [queryStep, dispatchExc, hb]
      · simp [queryStep, dispatchExc, hvm, hag]
    rw [queryVmLoop_succ, hstep]

/-- Witness for `c7_error_dispatch`: an unexpected 500 (matching neither
retry condition) fails immediately with the exception text. -/
theorem c7_error_dispatch_witness :
    queryVmLoop 7 5 taskOkFirstPoll [] (fun _ =>
      .exc 500 "unexpected API error" "500 unexpected API error") 3 =
      .failed "500 unexpected API error" :=
  (c7_error_dispatch 7 5 taskOkFirstPoll [] (fun _ =>
      .exc 500 "unexpected API error" "500 unexpected API error")
    500 "unexpected API error" "500 unexpected API error" 0 rfl).2.2
    (Or.inr ⟨by decide, by decide⟩) 2

theorem replyFound_ok_nonempty {replyResult : Option (List Interface)}
    {rem : Nat} {addrs : List String} {rem2 : Nat}
    (h : replyFound replyResult rem = some (.ok addrs rem2)) :
    addrs ≠ [] := by
  unfold replyFound at h
  split at h
  · split at h
    · simp at h
    · split at h
      · next hpos =>
        simp only [Option.some.injEq, QueryOutcome.ok.injEq] at h
        obtain ⟨rfl, -⟩ := h
        intro hnil
        subst hnil
        simp at hpos
      · simp at h
  · simp at h

theorem queryVmLoop_ok_nonempty (vmid paramsTimeout : Nat)
    (taskPoll : Nat → TaskStatus) (logs : List String) :
    ∀ (fuel : Nat) (replies : Nat → AgentReply) (addrs : List String)
      (rem : Nat),
      queryVmLoop vmid paramsTimeout taskPoll logs replies fuel =
        .ok addrs rem → addrs ≠ [] := by
  intro fuel
  induction fuel with
  | zero =>
    intro replies addrs rem h
    simp [queryVmLoop] at h
  | succ t ih =>
    intro replies addrs rem h
    unfold queryVmLoop at h
    split at h
    · cases h
    · split at h
      · next out hfound =>
        subst h
        exact replyFound_ok_nonempty hfound
      · split at h
        · cases h
        · exact ih _ _ _ h

/-- C8: when the Guest-Agent Poller returns normally its address list is
never empty — budget exhaustion without a non-empty ranked list instead
fails with the timeout message naming the VM identifier — and in
particular, with a budget of 1 and a query that always reports the guest
agent as not running, the poll fails with exactly that timeout error. -/
theorem c8_query_timeout (vmid paramsTimeout : Nat)
    (replies : Nat → AgentReply) (taskPoll : Nat → TaskStatus)
    (logs : List String) :
    (∀ addrs rem, query_vm vmid paramsTimeout replies taskPoll logs =
        .ok addrs rem → addrs ≠ []) ∧
      query_vm 7 1 agentNeverUp taskPoll logs =
        .failed ("Timeout while waiting for vmid " ++ toString 7 ++
          " IP address") := by
  constructor
  · intro addrs rem h
    exact queryVmLoop_ok_nonempty vmid paramsTimeout taskPoll logs
      paramsTimeout replies addrs rem h
  · rfl

/-- Witness for `c8_query_timeout`: a successful poll returns a non-empty
list. -/
theorem c8_query_timeout_witness : (["10.0.0.9"] : List String) ≠ [] :=
  (c8_query_timeout 7 1 (fun _ => goodReply) taskOkFirstPoll []).1
    ["10.0.0.9"] 1 (by decide)

/-- Counterexample to C1: the two polling phases do not draw on one shared
countdown. With a timeout parameter of 2, a first query that reports "VM
is not running", and a start task that consumes one second of waiting, the
source code still succeeds — `start_vm` counts down a fresh
`module.params['timeout']` of its own — whereas the spec's shared-budget
poller has the task wait consume the shared countdown and therefore times
out on the very same input. -/
theorem c1_budget_not_shared :
    query_vm 7 2 vmDownThenGood taskOkSecondPoll [] = .ok ["10.0.0.9"] 1 ∧
      queryVmShared 7 2 vmDownThenGood taskOkSecondPoll [] =
        .failed (queryTimeoutMsg 7) := by
  decide

/-- C1 (amended): each polling phase has a countdown of its own, both
initialised from the same timeout parameter; the poller's countdown is
decremented once per query iteration and never replenished, while each
task-start cycle counts down a fresh full-parameter budget that leaves the
poller's countdown untouched. On the claim's scenario — "VM not running",
a simulated start, two "agent not running" replies, then a success with
one valid address — the poll returns exactly that address and consumes one
task-start cycle plus three one-second ticks from the poller's own
countdown: with a timeout parameter of 4 the poll succeeds with 1 tick to
spare even when the start cycle itself consumes two further seconds from
its own budget, and with a timeout parameter of 3 it times out. -/
theorem c1_separate_budgets :
    query_vm 7 4 scenarioReplies taskOkFirstPoll [] = .ok ["10.0.0.9"] 1 ∧
      query_vm 7 4 scenarioReplies taskOkThirdPoll [] = .ok ["10.0.0.9"] 1 ∧
      query_vm 7 3 scenarioReplies taskOkFirstPoll [] =
        .failed (queryTimeoutMsg 7) := by
  decide

/-- C10: every `module.exit_json` of the module reports `changed = False`
(even on runs whose poll had to start the VM), `vmid` equal to the
requested identifier, and `addresses` equal to the non-empty list the
poller returned. -/
theorem c10_result_shape (vmid paramsTimeout : Nat)
    (resources : List VmResource) (replies : Nat → AgentReply)
    (taskPoll : Nat → TaskStatus) (logs : List String) (r : ModuleResult)
    (h : run_module vmid paramsTimeout resources replies taskPoll logs =
      .exitJson r) :
    r.changed = false ∧ r.vmid = vmid ∧ r.addresses ≠ [] ∧
      ∃ vm rem, get_vm vmid resources = .ok vm ∧
        query_vm vm.vmid paramsTimeout replies taskPoll logs =
          .ok r.addresses rem := by
  unfold run_module at h
  rcases hg : get_vm vmid resources with m | vm
  · rw [hg] at h
    cases h
  · rw [hg] at h
    dsimp only at h
    rcases hq : query_vm vm.vmid paramsTimeout replies taskPoll logs with
      ⟨addrs, rem⟩ | m | -
    · rw [hq] at h
      have hr : (⟨false, vmid, addrs⟩ : ModuleResult) = r := by
        injection h
      subst hr
      refine ⟨rfl, rfl, ?_, vm, rem, rfl, hq⟩
      exact queryVmLoop_ok_nonempty vm.vmid paramsTimeout taskPoll logs
        paramsTimeout replies addrs rem hq
    · rw [hq] at h
      cases h
    · rw [hq] at h
      cases h

/-- Witness for `c10_result_shape` on a run that starts the VM: the
result object has `changed = false`. -/
theorem c10_result_shape_witness :
    (ModuleResult.mk false 7 ["10.0.0.9"]).changed = false :=
  (c10_result_shape 7 4 [⟨7, "pve"⟩] scenarioReplies taskOkFirstPoll []
    ⟨false, 7, ["10.0.0.9"]⟩ (by decide)).1

/-! Lemmas about the driver's connection-option lookup. -/

theorem findInstance_no_match (instanceName : String) :
    ∀ records : List PyDict,
      (∀ r ∈ records, (dictGet r "instance").isSome) →
      (∀ r ∈ records, dictGet r "instance" ≠ some instanceName) →
      findInstance instanceName records = .error .stopIteration := by
  intro records
  induction records with
  | nil =>
    intro _ _
    rfl
  | cons r rs ih =>
    intro hkeys hne
    unfold findInstance
    rcases hr : dictGet r "instance" with - | v
    · have := hkeys r (by simp)
      rw [hr] at this
      simp at this
    · have hv : (v == instanceName) = false := by
        have := hne r (by simp)
        rw [hr] at this
        simp only [ne_eq, Option.some.injEq] at this
        simp only [beq_eq_false_iff_ne, ne_eq]
        exact this
      simp only [hr, hv, Bool.false_eq_true, if_false]
      exact ih (fun x hx => hkeys x (by simp [hx]))
        (fun x hx => hne x (by simp [hx]))

/-- C9: deriving connection options for an instance whose record file does
not exist on disk (the `IOError` path), or whose records hold no entry
with the requested instance name (the `StopIteration` path), returns the
empty mapping instead of raising. -/
theorem c9_missing_record (instanceName : String)
    (sshConnectionOptions : List String) (records : List PyDict)
    (hkeys : ∀ r ∈ records, (dictGet r "instance").isSome)
    (hnone : ∀ r ∈ records, dictGet r "instance" ≠ some instanceName) :
    ansible_connection_options none instanceName sshConnectionOptions =
        .ok [] ∧
      ansible_connection_options (some records) instanceName
        sshConnectionOptions = .ok [] := by
  constructor
  · rfl
  · have hf := findInstance_no_match instanceName records hkeys hnone
    unfold ansible_connection_options _get_instance_config safe_load_file
    simp only [hf]
    rfl

/-- Witness for `c9_missing_record`: a one-record file without the
requested instance yields the empty mapping. -/
theorem c9_missing_record_witness :
    ansible_connection_options (some [[("instance", "other")]]) "web" [] =
      .ok [] :=
  (c9_missing_record "web" [] [[("instance", "other")]]
    (by decide) (by decide)).2

end MoleculeProxmox
